import Mathlib

/-!
Shallow embedding of the voice-call orchestration service
(`callManager.js`, `llmBot.js`, `deepgramHandler.js`, `livekitClient.js`,
`index.js`).

Modelling conventions:
* JS `Map` objects become association lists (`mapGet` / `mapSet` / `mapDel`
  mirror `Map.get` / `Map.set` / `Map.delete`, keeping insertion order).
* Asynchronous provider calls (room creation, SIP dial, LLM completion,
  speech synthesis) are driven by oracle arguments (`Bool` success flags or
  `Option String` results) supplied at each suspension point.
* Externally visible provider interactions are recorded in an `Effect`
  trace in the order the code issues them.
* The `async` transcript handler created in `setupSpeechToText` suspends at
  its `await` points; each suspended invocation is a `TaskEntry` whose
  continuation (`TaskK`) advances one segment per scheduler step, exactly
  as Node's event loop resumes it.  A handler whose promise rejects ends in
  `TaskK.doneErr` (nothing in the source ever catches such a rejection).
* `Date`-valued fields (`startTime`, `endTime`, timestamps) and the derived
  `duration` are not modelled; no verified property depends on wall time.
  `confidence`/`words` of transcript events are never read by the handler
  and are omitted from the event record.
-/

namespace VoiceBot

/-! ## Conversation data model (`llmBot.js`) -/

/-- Role tag of one conversation turn (`{role: 'system'|'user'|'assistant'}`). -/
inductive Role
  | system
  | user
  | assistant
  deriving DecidableEq, Repr

/-- One message of a conversation history (`{role, content}`). -/
structure Msg where
  role : Role
  content : String
  deriving DecidableEq, Repr

/-- Per-call conversation history (`llmBot.conversations` map values).  The
JS value also carries a `metadata` object that no operation ever reads
back; it is omitted. -/
structure Conversation where
  messages : List Msg
  deriving DecidableEq, Repr

/-! ## JS `Map` as an association list -/

/-- `Map.get`: first binding of the key, if any. -/
def mapGet {α : Type} (l : List (String × α)) (k : String) : Option α :=
  match l with
  | [] => none
  | (k2, v) :: t => if k2 = k then some v else mapGet t k

/-- `Map.set`: update in place when the key exists (keeping insertion
order), otherwise append at the end. -/
def mapSet {α : Type} (l : List (String × α)) (k : String) (v : α) :
    List (String × α) :=
  match l with
  | [] => [(k, v)]
  | (k2, v2) :: t =>
      if k2 = k then (k2, v) :: t else (k2, v2) :: mapSet t k v

/-- `Map.delete`: remove the binding of the key, if present. -/
def mapDel {α : Type} (l : List (String × α)) (k : String) :
    List (String × α) :=
  match l with
  | [] => []
  | (k2, v2) :: t => if k2 = k then t else (k2, v2) :: mapDel t k

/-! ## LLMBot (`llmBot.js`) -/

/-- Default system prompt (`llmBot.js` constructor; the
`LLM_SYSTEM_PROMPT` environment variable is unset). -/
def defaultSystemPrompt : String :=
  "You are an AI assistant on a phone call. Be helpful, concise, and conversational. Ask questions when needed."

/-- Fixed fallback returned by `processMessage` when the completion request
throws (`llmBot.js`, catch branch). -/
def fallbackResponse : String :=
  "I'm sorry, I'm having trouble processing your request. Could you try again?"

/-- State of the `LLMBot` singleton: the `conversations` map. -/
structure BotState where
  conversations : List (String × Conversation)
  deriving DecidableEq, Repr

def BotState.empty : BotState := ⟨[]⟩

/-- `initializeConversation(callId, metadata)`: (re)seed the history with
the single system-prompt turn. -/
def initializeConversation (bot : BotState) (callId : String) : BotState :=
  { bot with
      conversations :=
        mapSet bot.conversations callId ⟨[⟨.system, defaultSystemPrompt⟩]⟩ }

/-- The `if (!this.conversations.has(callId)) this.initializeConversation(callId)`
guard shared by `processMessage` and `addSystemMessage`. -/
def ensureConversation (bot : BotState) (callId : String) : BotState :=
  if (mapGet bot.conversations callId).isSome then bot
  else initializeConversation bot callId

/-- `conversation.messages.push(m)` on the conversation object held in the
map.  When the map no longer holds the call id the push lands on an
orphaned object and is invisible here (no verified property exercises that
corner). -/
def pushTurn (bot : BotState) (callId : String) (m : Msg) : BotState :=
  match mapGet bot.conversations callId with
  | some conv =>
      { bot with
          conversations :=
            mapSet bot.conversations callId ⟨conv.messages ++ [m]⟩ }
  | none => bot

/-- `addSystemMessage(callId, content)`. -/
def addSystemMessage (bot : BotState) (callId content : String) : BotState :=
  pushTurn (ensureConversation bot callId) callId ⟨.system, content⟩

/-- `processMessage(callId, userInput)` up to its first `await` (the chat
completion request): ensure the conversation exists, push the user turn,
and return the message list submitted to the model. -/
def processMessagePre (bot : BotState) (callId userInput : String) :
    BotState × List Msg :=
  let bot1 := pushTurn (ensureConversation bot callId) callId ⟨.user, userInput⟩
  (bot1, ((mapGet bot1.conversations callId).getD ⟨[]⟩).messages)

/-- `processMessage` after the completion settles.  `some resp` is the
(trimmed) model output: the assistant turn is pushed and `resp` returned.
`none` is a thrown completion error: the catch branch returns the fixed
apology without touching the history further. -/
def processMessagePost (bot : BotState) (callId : String)
    (llmResult : Option String) : BotState × String :=
  match llmResult with
  | some resp => (pushTurn bot callId ⟨.assistant, resp⟩, resp)
  | none => (bot, fallbackResponse)

/-- `endConversation(callId)`. -/
def endConversation (bot : BotState) (callId : String) : BotState :=
  { bot with conversations := mapDel bot.conversations callId }

/-! ## Call manager data model (`callManager.js`) -/

inductive CallType
  | inbound
  | outbound
  deriving DecidableEq, Repr

/-- One entry of `callManager.activeCalls`.  `status` is the literal string
the code stores.  `botToken` holds the issued JWT (opaque; see
`generateToken`), `sipDetails` the dial result for outbound calls. -/
structure CallRecord where
  id : String
  roomName : String
  type : CallType
  callerIdentity : Option String
  phoneNumber : Option String
  botIdentity : String
  botToken : String
  status : String
  lastTranscript : Option String
  sttSession : Bool
  sipDetails : Option String
  deriving DecidableEq, Repr

/-- `callManager`'s process-wide state: the `activeCalls` and
`botParticipants` maps. -/
structure CMState where
  activeCalls : List (String × CallRecord)
  botParticipants : List (String × String)
  deriving DecidableEq, Repr

/-- Externally visible provider interactions, in issue order. -/
inductive Effect
  | roomProvision (roomName : String)
  | tokenIssue (roomName identity : String)
  | sipDial (uri : String)
  | registryInsert (callId : String)
  | completionRequest (callId : String) (messages : List Msg)
  | synthRequest (text : String)
  | audioForward (audio : String)
  | sttOpen (callId : String)
  | sttClose (callId : String)
  | participantDisconnect (roomName identity : String)
  deriving DecidableEq, Repr

/-- Continuation of one suspended `handleTranscription` invocation (the
async closure built in `setupSpeechToText`): which `await` it sits at. -/
inductive TaskK
  | awaitingCompletion
  | awaitingSynth (response : String)
  | doneOk
  | doneErr
  deriving DecidableEq, Repr

/-- A pending transcript-processing step: nothing in the source ever joins
or cancels these promises, and nothing catches a `doneErr` rejection. -/
structure TaskEntry where
  callId : String
  k : TaskK
  deriving DecidableEq, Repr

/-- Whole-process state: the two singletons plus the pending handler
invocations and the emitted provider-interaction trace. -/
structure Sys where
  bot : BotState
  cm : CMState
  tasks : List TaskEntry
  trace : List Effect
  deriving DecidableEq, Repr

def Sys.init : Sys := ⟨BotState.empty, ⟨[], []⟩, [], []⟩

/-! ## LiveKit client (`livekitClient.js`) -/

/-- `generateToken(roomName, participantName, true)`: the token is an
opaque signed JWT; modelled as a tagged string of its inputs. -/
def generateToken (roomName participantName : String) : String :=
  "jwt:" ++ roomName ++ ":" ++ participantName

/-- `phoneNumber.startsWith('+')` (a one-character prefix test). -/
def startsWithPlus (s : String) : Bool :=
  match s.data with
  | [] => false
  | c :: _ => c = '+'

/-- `placeOutboundCall`'s number normalization (later revision):
`phoneNumber.startsWith('+') ? phoneNumber : '+' + phoneNumber`. -/
def formatPhone (phoneNumber : String) : String :=
  if startsWithPlus phoneNumber then phoneNumber else "+" ++ phoneNumber

/-- The SIP URI handed to the dial request:
`` `sip:${formattedPhone}@${sipDomain}` ``. -/
def sipUri (phoneNumber sipDomain : String) : String :=
  "sip:" ++ formatPhone phoneNumber ++ "@" ++ sipDomain

/-- `placeOutboundCall(roomName, phoneNumber)` (later revision): ensure the
room exists, normalize the number, issue the SIP egress request.  `roomOk`
and `dialOk` are the outcomes of the two awaited provider calls; the
returned string stands for the structured dial result (`sipDetails`). -/
def placeOutboundCall (sys : Sys) (roomOk dialOk : Bool)
    (roomName phoneNumber sipDomain : String) : Sys × Option String :=
  let sys := { sys with trace := sys.trace ++ [Effect.roomProvision roomName] }
  if !roomOk then (sys, none)
  else
    let uri := sipUri phoneNumber sipDomain
    let sys := { sys with trace := sys.trace ++ [Effect.sipDial uri] }
    if !dialOk then (sys, none) else (sys, some uri)

/-! ## Call manager operations (`callManager.js`) -/

/-- Result object of `handleInboundCall`. -/
structure InboundResult where
  callId : String
  roomName : String
  botIdentity : String
  botToken : String
  deriving DecidableEq, Repr

/-- `handleInboundCall(roomName, callerIdentity)`.  `callId` is the fresh
uuid, `roomOk` the outcome of `createOrGetRoom`; `none` models the
rethrown setup error. -/
def handleInboundCall (sys : Sys) (roomOk : Bool)
    (callId roomName callerIdentity : String) : Sys × Option InboundResult :=
  let botIdentity := "bot-" ++ callId
  let sys := { sys with trace := sys.trace ++ [Effect.roomProvision roomName] }
  if !roomOk then (sys, none)
  else
    let botToken := generateToken roomName botIdentity
    let sys := { sys with trace := sys.trace ++ [Effect.tokenIssue roomName botIdentity] }
    let bot := initializeConversation sys.bot callId
    let bot := addSystemMessage bot callId
      ("This is an inbound call from " ++ callerIdentity ++ ". Be welcoming and helpful.")
    let call : CallRecord :=
      { id := callId, roomName := roomName, type := .inbound,
        callerIdentity := some callerIdentity, phoneNumber := none,
        botIdentity := botIdentity, botToken := botToken,
        status := "initializing", lastTranscript := none,
        sttSession := false, sipDetails := none }
    let cm : CMState :=
      { activeCalls := mapSet sys.cm.activeCalls callId call,
        botParticipants := mapSet sys.cm.botParticipants roomName botIdentity }
    let sys := { sys with
      bot := bot
      cm := cm
      trace := sys.trace ++ [Effect.registryInsert callId] }
    (sys, some ⟨callId, roomName, botIdentity, botToken⟩)

/-- Result object of `initiateOutboundCall`. -/
structure OutboundResult where
  callId : String
  roomName : String
  botIdentity : String
  botToken : String
  sipDetails : String
  deriving DecidableEq, Repr

/-- `initiateOutboundCall(phoneNumber, options)`.  `callId` is the fresh
uuid; `roomOk`/`dialOk` drive the awaited provider calls (`createOrGetRoom`
is awaited again inside `placeOutboundCall` with the same outcome). -/
def initiateOutboundCall (sys : Sys) (roomOk dialOk : Bool)
    (callId phoneNumber : String) (optRoomName optInitialContext : Option String)
    (sipDomain : String) : Sys × Option OutboundResult :=
  let roomName := optRoomName.getD ("call-" ++ callId)
  let botIdentity := "bot-" ++ callId
  let sys := { sys with trace := sys.trace ++ [Effect.roomProvision roomName] }
  if !roomOk then (sys, none)
  else
    let botToken := generateToken roomName botIdentity
    let sys := { sys with trace := sys.trace ++ [Effect.tokenIssue roomName botIdentity] }
    let dial := placeOutboundCall sys roomOk dialOk roomName phoneNumber sipDomain
    match dial.2 with
    | none => (dial.1, none)
    | some uri =>
        let sys := dial.1
        let bot := initializeConversation sys.bot callId
        let bot :=
          match optInitialContext with
          | some ctx => addSystemMessage bot callId ctx
          | none => bot
        let call : CallRecord :=
          { id := callId, roomName := roomName, type := .outbound,
            callerIdentity := none, phoneNumber := some phoneNumber,
            botIdentity := botIdentity, botToken := botToken,
            status := "calling", lastTranscript := none,
            sttSession := false, sipDetails := some uri }
        let cm : CMState :=
          { activeCalls := mapSet sys.cm.activeCalls callId call,
            botParticipants := mapSet sys.cm.botParticipants roomName botIdentity }
        let sys := { sys with
          bot := bot
          cm := cm
          trace := sys.trace ++ [Effect.registryInsert callId] }
        (sys, some ⟨callId, roomName, botIdentity, botToken, uri⟩)

/-- `setupSpeechToText(callId, audioCallback)`: rejects unknown call ids
(the JS throws; `false` here), otherwise opens the Deepgram session and
marks the call `active`. -/
def setupSpeechToText (sys : Sys) (callId : String) : Sys × Bool :=
  match mapGet sys.cm.activeCalls callId with
  | none => (sys, false)
  | some call =>
      let sys := { sys with trace := sys.trace ++ [Effect.sttOpen callId] }
      let call := { call with sttSession := true, status := "active" }
      let cm := { sys.cm with
        activeCalls := mapSet sys.cm.activeCalls callId call }
      let sys := { sys with cm := cm }
      (sys, true)

/-- A transcript event as delivered to the `handleTranscription` callback
(`deepgramHandler.startSTTSession` builds it from the provider payload;
the unread `confidence`/`words` fields are omitted). -/
structure TranscriptionResult where
  callId : String
  transcript : String
  isFinal : Bool
  deriving DecidableEq, Repr

/-- Delivery of one transcript event: `handleTranscription` runs
synchronously up to its first `await`.  Final non-empty transcripts update
`lastTranscript`, push the user turn, and issue the completion request
immediately, leaving a suspended continuation; all other events return at
the guard.  A delivery for an unregistered call id throws on
`call.lastTranscript = ...` (property access on `undefined`), rejecting
the handler's promise. -/
def transcriptArrive (sys : Sys) (callId : String) (tr : TranscriptionResult) :
    Sys :=
  if tr.isFinal = true ∧ tr.transcript ≠ "" then
    match mapGet sys.cm.activeCalls callId with
    | none => { sys with tasks := sys.tasks ++ [TaskEntry.mk callId TaskK.doneErr] }
    | some call =>
        let call := { call with lastTranscript := some tr.transcript }
        let cm := { sys.cm with
          activeCalls := mapSet sys.cm.activeCalls callId call }
        let pre := processMessagePre sys.bot callId tr.transcript
        { sys with
            bot := pre.1
            cm := cm
            trace := sys.trace ++ [Effect.completionRequest callId pre.2]
            tasks := sys.tasks ++ [TaskEntry.mk callId TaskK.awaitingCompletion] }
  else sys

/-- Resume the suspended handler at index `i` by one segment.
`llmResult` settles a pending completion (`none` = thrown completion
error, degraded to the apology inside `processMessage`); the resumed code
then calls `textToSpeech` synchronously, issuing the synthesis request.
`ttsResult` settles a pending synthesis: on `some audio` the audio is
forwarded through `audioCallback`; on `none` (`textToSpeech` rethrows) the
handler's promise rejects with nothing to catch it. -/
def taskAdvance (sys : Sys) (i : Nat) (llmResult ttsResult : Option String) :
    Sys :=
  match sys.tasks[i]? with
  | none => sys
  | some t =>
      match t.k with
      | .awaitingCompletion =>
          let post := processMessagePost sys.bot t.callId llmResult
          { sys with
              bot := post.1
              trace := sys.trace ++ [Effect.synthRequest post.2]
              tasks := sys.tasks.set i ⟨t.callId, .awaitingSynth post.2⟩ }
      | .awaitingSynth _ =>
          match ttsResult with
          | some audio =>
              { sys with
                  trace := sys.trace ++ [Effect.audioForward audio]
                  tasks := sys.tasks.set i ⟨t.callId, .doneOk⟩ }
          | none =>
              { sys with tasks := sys.tasks.set i ⟨t.callId, .doneErr⟩ }
      | _ => sys

/-- `endCall(callId)`: unknown ids report `false`; otherwise the STT
session and conversation are torn down, the bot participant disconnect is
attempted (`disconnectOk`; a failure is caught, skipping only the
`botParticipants` cleanup), the record is marked `ended`, and `true` is
returned - also when the record was already `ended`. -/
def endCall (sys : Sys) (callId : String) (disconnectOk : Bool) : Sys × Bool :=
  match mapGet sys.cm.activeCalls callId with
  | none => (sys, false)
  | some call =>
      let sys := { sys with trace := sys.trace ++ [Effect.sttClose callId] }
      let sys := { sys with bot := endConversation sys.bot callId }
      let sys := { sys with
        trace := sys.trace ++ [Effect.participantDisconnect call.roomName call.botIdentity] }
      let sys :=
        if disconnectOk then
          { sys with cm := { sys.cm with
              botParticipants := mapDel sys.cm.botParticipants call.roomName } }
        else sys
      let call := { call with status := "ended" }
      let cm := { sys.cm with
        activeCalls := mapSet sys.cm.activeCalls callId call }
      let sys := { sys with cm := cm }
      (sys, true)

/-- The delayed `activeCalls.delete(callId)` scheduled by `endCall` (the
end of the grace period). -/
def purgeCall (sys : Sys) (callId : String) : Sys :=
  { sys with cm := { sys.cm with
      activeCalls := mapDel sys.cm.activeCalls callId } }

/-- Snapshot returned by `getCallDetails` (time-derived fields omitted). -/
structure CallDetails where
  id : String
  type : CallType
  status : String
  roomName : String
  lastTranscript : Option String
  deriving DecidableEq, Repr

/-- `getCallDetails(callId)`: `none` for unknown ids. -/
def getCallDetails (sys : Sys) (callId : String) : Option CallDetails :=
  match mapGet sys.cm.activeCalls callId with
  | some call =>
      some ⟨call.id, call.type, call.status, call.roomName, call.lastTranscript⟩
  | none => none

/-! ## Observers -/

/-- The completion requests issued so far, in order. -/
def completionRequests (tr : List Effect) : List (String × List Msg) :=
  tr.filterMap fun e =>
    match e with
    | .completionRequest cid msgs => some (cid, msgs)
    | _ => none

/-- The synthesis requests issued so far, in order. -/
def synthRequests (tr : List Effect) : List String :=
  tr.filterMap fun e =>
    match e with
    | .synthRequest t => some t
    | _ => none

/-- The outbound audio forwards issued so far, in order. -/
def audioForwards (tr : List Effect) : List String :=
  tr.filterMap fun e =>
    match e with
    | .audioForward a => some a
    | _ => none

/-- A handler invocation that has started but not yet settled. -/
def TaskK.inFlight : TaskK → Bool
  | .awaitingCompletion => true
  | .awaitingSynth _ => true
  | _ => false

/-- Number of processing steps currently in flight. -/
def inFlightSteps (sys : Sys) : Nat :=
  (sys.tasks.filter fun t => t.k.inFlight).length

/-- Status string currently stored for a call id. -/
def statusOf (sys : Sys) (callId : String) : Option String :=
  (mapGet sys.cm.activeCalls callId).map CallRecord.status

/-- The history a conversation operation starts from: the stored messages,
or the fresh system-prompt seed that the auto-initialization guard
installs for an unknown id. -/
def historyOrSeed (bot : BotState) (callId : String) : List Msg :=
  match mapGet bot.conversations callId with
  | some conv => conv.messages
  | none => [⟨.system, defaultSystemPrompt⟩]

/-! ## Reachable states of the service -/

/-- The spec's state machine (`Initializing → Connecting → Active →
Ending → Ended`). -/
inductive SessionState
  | initializing
  | connecting
  | active
  | ending
  | ended
  deriving DecidableEq, Repr

/-- Abstraction from the literal status strings the code stores to the
spec's states: `'initializing' ↦ Initializing`, `'calling' ↦ Connecting`
(the outbound dial-in-progress status), `'active' ↦ Active`,
`'ended' ↦ Ended`; anything else is undefined. -/
def specStateOfStatus : String → Option SessionState
  | "initializing" => some .initializing
  | "calling" => some .connecting
  | "active" => some .active
  | "ending" => some .ending
  | "ended" => some .ended
  | _ => none

/-- A status string that denotes one of the spec's defined states. -/
def statusDefined (s : String) : Prop := (specStateOfStatus s).isSome = true

/-- Every record in the registry carries a defined status. -/
def registryStatusesDefined (sys : Sys) : Prop :=
  ∀ p ∈ sys.cm.activeCalls, statusDefined p.2.status

/-- One externally triggered step of the whole service: the API /
webhook entry points, the delivery of one provider transcript event, one
event-loop resumption of a suspended handler, and the grace-period purge. -/
inductive Op
  | inbound (roomOk : Bool) (callId roomName callerIdentity : String)
  | outbound (roomOk dialOk : Bool) (callId phoneNumber : String)
      (optRoomName optInitialContext : Option String) (sipDomain : String)
  | setupSTT (callId : String)
  | arrive (callId : String) (tr : TranscriptionResult)
  | advanceTask (i : Nat) (llmResult ttsResult : Option String)
  | hangUp (callId : String) (disconnectOk : Bool)
  | purge (callId : String)

def applyOp (sys : Sys) : Op → Sys
  | .inbound r cid rn ci => (handleInboundCall sys r cid rn ci).1
  | .outbound r d cid ph orn octx dom =>
      (initiateOutboundCall sys r d cid ph orn octx dom).1
  | .setupSTT cid => (setupSpeechToText sys cid).1
  | .arrive cid tr => transcriptArrive sys cid tr
  | .advanceTask i llm tts => taskAdvance sys i llm tts
  | .hangUp cid ok => (endCall sys cid ok).1
  | .purge cid => purgeCall sys cid

/-- Every reachable state of the service. -/
def runOps (ops : List Op) : Sys := ops.foldl applyOp Sys.init

/-! ## Concrete scenarios -/

/-- `handleInboundCall` for room `room-42`, caller `pstn-1` (fresh uuid
`call-1`) followed by `setupSpeechToText`: an `active` registered call. -/
def activeInboundSys : Sys :=
  (setupSpeechToText
    (handleInboundCall Sys.init true "call-1" "room-42" "pstn-1").1 "call-1").1

/-- The registry record of `activeInboundSys`. -/
def activeInboundRec : CallRecord :=
  { id := "call-1", roomName := "room-42", type := .inbound,
    callerIdentity := some "pstn-1", phoneNumber := none,
    botIdentity := "bot-call-1", botToken := "jwt:room-42:bot-call-1",
    status := "active", lastTranscript := none,
    sttSession := true, sipDetails := none }

/-- `activeInboundSys` after a first final transcript: one step in flight,
its completion unresolved. -/
def c1afterFirst : Sys :=
  transcriptArrive activeInboundSys "call-1" ⟨"call-1", "first message", true⟩

/-- `c1afterFirst` after a second final transcript delivered while the
first step's completion is still pending. -/
def c1afterSecond : Sys :=
  transcriptArrive c1afterFirst "call-1" ⟨"call-1", "second message", true⟩

/-- The record stored for `call-1` in `c1afterFirst`. -/
def c1afterFirstRec : CallRecord :=
  { activeInboundRec with lastTranscript := some "first message" }

/-- The spec scenario run on a fresh inbound session: feed final
transcript `"hello"`, resolve the completion with `"hi there"`, resolve
the synthesis with `"audio-1"`. -/
def c2run : Sys :=
  taskAdvance
    (taskAdvance
      (transcriptArrive activeInboundSys "call-1" ⟨"call-1", "hello", true⟩)
      0 (some "hi there") none)
    0 none (some "audio-1")

/-- `endCall` on the active inbound call: reaches `ended`, still in the
registry (inside the grace period). -/
def c3afterEnd : Sys := (endCall activeInboundSys "call-1" true).1

/-- The failing input: final transcript `"hello"` on the active inbound
call, completion `"hi there"`, synthesis provider error. -/
def c7run : Sys :=
  taskAdvance
    (taskAdvance
      (transcriptArrive activeInboundSys "call-1" ⟨"call-1", "hello", true⟩)
      0 (some "hi there") none)
    0 none none

/-! ## Map and list lemmas -/

theorem mapGet_set_self {α : Type} (l : List (String × α)) (k : String) (v : α) :
    mapGet (mapSet l k v) k = some v := by
  induction l with
  | nil => simp [mapGet, mapSet]
  | cons h t ih =>
      obtain ⟨k2, v2⟩ := h
      by_cases hk : k2 = k <;> simp [mapGet, mapSet, hk, ih]

theorem mem_mapSet {α : Type} {l : List (String × α)} {k : String} {v : α}
    {p : String × α} : p ∈ mapSet l k v → p = (k, v) ∨ p ∈ l := by
  induction l with
  | nil =>
      intro hp
      simp [mapSet] at hp
      exact Or.inl hp
  | cons hd t ih =>
      obtain ⟨k2, v2⟩ := hd
      intro hp
      by_cases hk : k2 = k
      · subst hk
        simp [mapSet] at hp
        rcases hp with h1 | h2
        · exact Or.inl h1
        · exact Or.inr (List.mem_cons_of_mem _ h2)
      · simp only [mapSet, if_neg hk, List.mem_cons] at hp
        rcases hp with h1 | h2
        · exact Or.inr (by simp [h1])
        · rcases ih h2 with h3 | h4
          · exact Or.inl h3
          · exact Or.inr (List.mem_cons_of_mem _ h4)

theorem mem_mapDel {α : Type} {l : List (String × α)} {k : String}
    {p : String × α} : p ∈ mapDel l k → p ∈ l := by
  induction l with
  | nil =>
      intro hp
      simp [mapDel] at hp
  | cons hd t ih =>
      obtain ⟨k2, v2⟩ := hd
      intro hp
      by_cases hk : k2 = k
      · simp only [mapDel, if_pos hk] at hp
        exact List.mem_cons_of_mem _ hp
      · simp only [mapDel, if_neg hk, List.mem_cons] at hp
        rcases hp with h1 | h2
        · simp [h1]
        · exact List.mem_cons_of_mem _ (ih h2)

theorem mapGet_mem {α : Type} {l : List (String × α)} {k : String} {v : α} :
    mapGet l k = some v → (k, v) ∈ l := by
  induction l with
  | nil =>
      intro h
      simp [mapGet] at h
  | cons hd t ih =>
      obtain ⟨k2, v2⟩ := hd
      intro h
      by_cases hk : k2 = k
      · subst hk
        simp [mapGet] at h
        simp [h]
      · simp only [mapGet, if_neg hk] at h
        exact List.mem_cons_of_mem _ (ih h)

theorem getElem?_concat {α : Type} (l : List α) (e : α) :
    (l ++ [e])[l.length]? = some e := by
  induction l with
  | nil => rfl
  | cons h t ih => simp [ih]

theorem set_concat {α : Type} (l : List α) (e e2 : α) :
    (l ++ [e]).set l.length e2 = l ++ [e2] := by
  induction l with
  | nil => rfl
  | cons h t ih => simp [ih]

/-! ## Conversation and pipeline lemmas -/

theorem pushTurn_ensure_get (bot : BotState) (cid : String) (m : Msg) :
    mapGet (pushTurn (ensureConversation bot cid) cid m).conversations cid =
      some ⟨historyOrSeed bot cid ++ [m]⟩ := by
  unfold historyOrSeed ensureConversation pushTurn initializeConversation
  cases h : mapGet bot.conversations cid with
  | some conv => simp [h, mapGet_set_self]
  | none => simp [h, mapGet_set_self]

theorem processMessagePre_get (bot : BotState) (cid input : String) :
    mapGet (processMessagePre bot cid input).1.conversations cid =
      some ⟨historyOrSeed bot cid ++ [⟨.user, input⟩]⟩ :=
  pushTurn_ensure_get bot cid ⟨.user, input⟩

theorem processMessagePre_snd (bot : BotState) (cid input : String) :
    (processMessagePre bot cid input).2 =
      historyOrSeed bot cid ++ [⟨.user, input⟩] := by
  unfold processMessagePre
  simp [pushTurn_ensure_get bot cid ⟨.user, input⟩]

/-- What one delivery of a final non-empty transcript for a registered
call does, unconditionally: update `lastTranscript`, push the user turn,
issue the completion request, and suspend a new continuation - regardless
of any step already in flight (`sys.tasks` is arbitrary). -/
theorem transcriptArrive_final_eq (sys : Sys) (cid : String)
    (tr : TranscriptionResult) (call : CallRecord)
    (hget : mapGet sys.cm.activeCalls cid = some call)
    (hfin : tr.isFinal = true) (hne : tr.transcript ≠ "") :
    transcriptArrive sys cid tr =
      { sys with
          bot := (processMessagePre sys.bot cid tr.transcript).1
          cm := { sys.cm with
            activeCalls := mapSet sys.cm.activeCalls cid
              { call with lastTranscript := some tr.transcript } }
          trace := sys.trace ++
            [Effect.completionRequest cid (processMessagePre sys.bot cid tr.transcript).2]
          tasks := sys.tasks ++ [TaskEntry.mk cid TaskK.awaitingCompletion] } := by
  unfold transcriptArrive
  rw [if_pos ⟨hfin, hne⟩, hget]

theorem taskAdvance_completion_eq (sys : Sys) (i : Nat) (cid : String)
    (llm tts : Option String)
    (h : sys.tasks[i]? = some ⟨cid, .awaitingCompletion⟩) :
    taskAdvance sys i llm tts =
      { sys with
          bot := (processMessagePost sys.bot cid llm).1
          trace := sys.trace ++
            [Effect.synthRequest (processMessagePost sys.bot cid llm).2]
          tasks := sys.tasks.set i ⟨cid, .awaitingSynth (processMessagePost sys.bot cid llm).2⟩ } := by
  unfold taskAdvance
  rw [h]

theorem taskAdvance_synth_eq (sys : Sys) (i : Nat) (cid resp : String)
    (llm : Option String) (audio : String)
    (h : sys.tasks[i]? = some ⟨cid, .awaitingSynth resp⟩) :
    taskAdvance sys i llm (some audio) =
      { sys with
          trace := sys.trace ++ [Effect.audioForward audio]
          tasks := sys.tasks.set i ⟨cid, .doneOk⟩ } := by
  unfold taskAdvance
  rw [h]

/-! ## Status-invariant lemmas -/

theorem handleInboundCall_statuses (sys : Sys) (r : Bool) (cid rn ci : String)
    (h : registryStatusesDefined sys) :
    registryStatusesDefined (handleInboundCall sys r cid rn ci).1 := by
  cases r with
  | false => exact h
  | true =>
      intro p hp
      rcases mem_mapSet hp with h1 | h1
      · subst h1
        rfl
      · exact h p h1

theorem initiateOutboundCall_statuses (sys : Sys) (r d : Bool)
    (cid ph : String) (orn octx : Option String) (dom : String)
    (h : registryStatusesDefined sys) :
    registryStatusesDefined (initiateOutboundCall sys r d cid ph orn octx dom).1 := by
  cases r with
  | false => exact h
  | true =>
      cases d with
      | false => exact h
      | true =>
          intro p hp
          rcases mem_mapSet hp with h1 | h1
          · subst h1
            rfl
          · exact h p h1

theorem setupSpeechToText_statuses (sys : Sys) (cid : String)
    (h : registryStatusesDefined sys) :
    registryStatusesDefined (setupSpeechToText sys cid).1 := by
  unfold setupSpeechToText
  split
  · exact h
  · intro p hp
    rcases mem_mapSet hp with h1 | h1
    · subst h1
      rfl
    · exact h p h1

theorem transcriptArrive_statuses (sys : Sys) (cid : String)
    (tr : TranscriptionResult) (h : registryStatusesDefined sys) :
    registryStatusesDefined (transcriptArrive sys cid tr) := by
  by_cases hfin : tr.isFinal = true ∧ tr.transcript ≠ ""
  · cases hget : mapGet sys.cm.activeCalls cid with
    | none =>
        have heq : transcriptArrive sys cid tr =
            { sys with tasks := sys.tasks ++ [TaskEntry.mk cid TaskK.doneErr] } := by
          unfold transcriptArrive
          rw [if_pos hfin, hget]
        rw [heq]
        exact h
    | some call =>
        rw [transcriptArrive_final_eq sys cid tr call hget hfin.1 hfin.2]
        intro p hp
        rcases mem_mapSet hp with h1 | h1
        · subst h1
          exact h (cid, call) (mapGet_mem hget)
        · exact h p h1
  · have heq : transcriptArrive sys cid tr = sys := by
      unfold transcriptArrive
      rw [if_neg hfin]
    rw [heq]
    exact h

theorem taskAdvance_statuses (sys : Sys) (i : Nat) (llm tts : Option String)
    (h : registryStatusesDefined sys) :
    registryStatusesDefined (taskAdvance sys i llm tts) := by
  unfold taskAdvance
  split
  · exact h
  · split
    · exact h
    · split
      · exact h
      · exact h
    · exact h

theorem endCall_statuses (sys : Sys) (cid : String) (dok : Bool)
    (h : registryStatusesDefined sys) :
    registryStatusesDefined (endCall sys cid dok).1 := by
  unfold endCall
  split
  · exact h
  · cases dok
    all_goals
      intro p hp
      rcases mem_mapSet hp with h1 | h1
      · subst h1
        rfl
      · exact h p h1

theorem purgeCall_statuses (sys : Sys) (cid : String)
    (h : registryStatusesDefined sys) :
    registryStatusesDefined (purgeCall sys cid) := by
  intro p hp
  exact h p (mem_mapDel hp)

theorem applyOp_statuses (sys : Sys) (op : Op)
    (h : registryStatusesDefined sys) :
    registryStatusesDefined (applyOp sys op) := by
  cases op with
  | inbound r cid rn ci => exact handleInboundCall_statuses sys r cid rn ci h
  | outbound r d cid ph orn octx dom =>
      exact initiateOutboundCall_statuses sys r d cid ph orn octx dom h
  | setupSTT cid => exact setupSpeechToText_statuses sys cid h
  | arrive cid tr => exact transcriptArrive_statuses sys cid tr h
  | advanceTask i llm tts => exact taskAdvance_statuses sys i llm tts h
  | hangUp cid ok => exact endCall_statuses sys cid ok h
  | purge cid => exact purgeCall_statuses sys cid h

theorem runOps_statuses (ops : List Op) : registryStatusesDefined (runOps ops) := by
  suffices hgen : ∀ sys, registryStatusesDefined sys →
      registryStatusesDefined (ops.foldl applyOp sys) by
    refine hgen Sys.init ?_
    intro p hp
    simp [Sys.init] at hp
  induction ops with
  | nil =>
      intro sys h
      exact h
  | cons op t ih =>
      intro sys h
      exact ih (applyOp sys op) (applyOp_statuses sys op h)

/-! ## Claim C1 -/

/-- C1 counterexample: two final transcripts arrive for `call-1` before the
first completion resolves.  Contrary to the claim, the second is neither
held in a pending slot nor deferred: two processing steps are in flight
simultaneously, both transcripts have already produced completion
requests, and the second request's history carries both user turns with no
assistant turn between them (the interleaved mutation the claimed guard is
supposed to prevent). -/
theorem c1_two_steps_in_flight :
    inFlightSteps c1afterSecond = 2 ∧
    (completionRequests c1afterSecond.trace).length = 2 ∧
    (completionRequests c1afterSecond.trace).map (fun r => r.2.map Msg.role) =
      [[Role.system, Role.system, Role.user],
       [Role.system, Role.system, Role.user, Role.user]] := by
  decide

/-- C1 amended: there is no in-flight guard and no single-slot pending
holder.  Every delivered final non-empty transcript for a registered call
immediately updates `lastTranscript`, appends its user turn, issues its
own completion request, and starts a new concurrently-pending step -
whatever steps (`sys.tasks`) are already in flight. -/
theorem c1_every_final_transcript_processed_immediately
    (sys : Sys) (cid : String) (tr : TranscriptionResult) (call : CallRecord)
    (hget : mapGet sys.cm.activeCalls cid = some call)
    (hfin : tr.isFinal = true) (hne : tr.transcript ≠ "") :
    transcriptArrive sys cid tr =
      { sys with
          bot := (processMessagePre sys.bot cid tr.transcript).1
          cm := { sys.cm with
            activeCalls := mapSet sys.cm.activeCalls cid
              { call with lastTranscript := some tr.transcript } }
          trace := sys.trace ++
            [Effect.completionRequest cid (processMessagePre sys.bot cid tr.transcript).2]
          tasks := sys.tasks ++ [TaskEntry.mk cid TaskK.awaitingCompletion] } :=
  transcriptArrive_final_eq sys cid tr call hget hfin hne

/-- Witness for C1 amended, at `c1afterFirst` - a state with a step
already in flight: the second transcript is still processed immediately. -/
theorem c1_every_final_transcript_processed_immediately_witness :
    transcriptArrive c1afterFirst "call-1" ⟨"call-1", "second message", true⟩ =
      { c1afterFirst with
          bot := (processMessagePre c1afterFirst.bot "call-1" "second message").1
          cm := { c1afterFirst.cm with
            activeCalls := mapSet c1afterFirst.cm.activeCalls "call-1"
              { c1afterFirstRec with lastTranscript := some "second message" } }
          trace := c1afterFirst.trace ++
            [Effect.completionRequest "call-1"
              (processMessagePre c1afterFirst.bot "call-1" "second message").2]
          tasks := c1afterFirst.tasks ++
            [TaskEntry.mk "call-1" TaskK.awaitingCompletion] } :=
  c1_every_final_transcript_processed_immediately c1afterFirst "call-1"
    ⟨"call-1", "second message", true⟩ c1afterFirstRec (by decide) rfl (by decide)

/-! ## Claim C2 -/

/-- C2 counterexample: the single completion request does not carry the
history `[system, user:"hello"]` the claim demands - inbound setup adds a
second system turn (the welcome message), so the roles are
`[system, system, user]`. -/
theorem c2_history_has_two_system_turns :
    (completionRequests c2run.trace).map (fun r => r.2.map Msg.role) =
      [[Role.system, Role.system, Role.user]] := by
  decide

/-- C2 amended: feeding final transcript `"hello"` to a fresh inbound
session issues exactly one completion request, whose history is the
system prompt, the inbound welcome system turn, and the user turn
`"hello"`; completing with `"hi there"` yields exactly one synthesis
request for `"hi there"` and exactly one outbound audio forward. -/
theorem c2_single_request_synth_forward :
    completionRequests c2run.trace =
      [("call-1",
        [⟨.system, defaultSystemPrompt⟩,
         ⟨.system, "This is an inbound call from pstn-1. Be welcoming and helpful."⟩,
         ⟨.user, "hello"⟩])] ∧
    synthRequests c2run.trace = ["hi there"] ∧
    audioForwards c2run.trace = ["audio-1"] := by
  decide

/-! ## Claim C3 -/

/-- C3 counterexample: `end` on a known id whose record is already `ended`
(and still queryable, i.e. within the grace period) returns `true` - the
teardown is simply re-run - where the claim requires `false`. -/
theorem c3_end_on_ended_returns_true :
    statusOf c3afterEnd "call-1" = some "ended" ∧
    (endCall c3afterEnd "call-1" true).2 = true := by
  decide

/-- C3 amended: `end(callId)` returns `false` exactly when the id is
unknown to the registry; on any known id - including one already `ended`
within its grace period - it re-runs the teardown and returns `true`. -/
theorem c3_end_true_iff_known (sys : Sys) (callId : String) (disconnectOk : Bool) :
    (endCall sys callId disconnectOk).2 =
      (mapGet sys.cm.activeCalls callId).isSome := by
  unfold endCall
  split <;> simp_all

/-! ## Claim C4 -/

/-- C4 counterexample: a room-provisioning failure during
`handleInboundCall` propagates the error and leaves the registry without
any record of the fresh call id (nothing queryable), and in the successful
run the `registryInsert` comes only after the room provisioning and token
issuance - the opposite of the claimed register-first order. -/
theorem c4_setup_failure_leaves_no_record :
    (handleInboundCall Sys.init false "call-1" "room-42" "pstn-1").2 = none ∧
    getCallDetails (handleInboundCall Sys.init false "call-1" "room-42" "pstn-1").1
      "call-1" = none ∧
    (handleInboundCall Sys.init true "call-1" "room-42" "pstn-1").1.trace =
      [Effect.roomProvision "room-42", Effect.tokenIssue "room-42" "bot-call-1",
       Effect.registryInsert "call-1"] := by
  decide

/-- C4 amended: both creation paths register the session only after all
external provisioning (room creation, token issuance, and the outbound
dial) has succeeded; any provisioning failure propagates to the caller and
leaves the registry exactly as it was, with no queryable record of the
attempted call. -/
theorem c4_registration_follows_provisioning (sys : Sys)
    (cid rn ci ph dom : String) (orn octx : Option String) :
    (handleInboundCall sys false cid rn ci).1.cm = sys.cm ∧
    (handleInboundCall sys false cid rn ci).2 = none ∧
    (handleInboundCall sys true cid rn ci).1.trace =
      sys.trace ++ [Effect.roomProvision rn, Effect.tokenIssue rn ("bot-" ++ cid),
        Effect.registryInsert cid] ∧
    (initiateOutboundCall sys false true cid ph orn octx dom).1.cm = sys.cm ∧
    (initiateOutboundCall sys false true cid ph orn octx dom).2 = none ∧
    (initiateOutboundCall sys true false cid ph orn octx dom).1.cm = sys.cm ∧
    (initiateOutboundCall sys true false cid ph orn octx dom).2 = none ∧
    (initiateOutboundCall sys true true cid ph orn octx dom).1.trace =
      sys.trace ++ [Effect.roomProvision (orn.getD ("call-" ++ cid)),
        Effect.tokenIssue (orn.getD ("call-" ++ cid)) ("bot-" ++ cid),
        Effect.roomProvision (orn.getD ("call-" ++ cid)),
        Effect.sipDial (sipUri ph dom),
        Effect.registryInsert cid] := by
  refine ⟨?_, ?_, ?_, ?_, ?_, ?_, ?_, ?_⟩ <;>
    simp [handleInboundCall, initiateOutboundCall, placeOutboundCall,
      List.append_assoc]

/-! ## Claim C5 -/

/-- C5: a delivered transcript event that is interim (`isFinal=false`) or
has empty text changes nothing at all - in particular the conversation
history is untouched and no completion request is issued; only final
non-empty events start a processing step. -/
theorem c5_interim_or_empty_is_noop (sys : Sys) (cid : String)
    (tr : TranscriptionResult) (h : tr.isFinal = false ∨ tr.transcript = "") :
    transcriptArrive sys cid tr = sys := by
  unfold transcriptArrive
  rw [if_neg]
  rintro ⟨h1, h2⟩
  rcases h with h | h
  · rw [h] at h1
    cases h1
  · exact h2 h

/-- Witness for C5: an interim `"hel"` and a final-but-empty event on the
active inbound session both leave the state unchanged. -/
theorem c5_interim_or_empty_is_noop_witness :
    transcriptArrive activeInboundSys "call-1" ⟨"call-1", "hel", false⟩ =
      activeInboundSys ∧
    transcriptArrive activeInboundSys "call-1" ⟨"call-1", "", true⟩ =
      activeInboundSys :=
  ⟨c5_interim_or_empty_is_noop activeInboundSys "call-1" _ (Or.inl rfl),
   c5_interim_or_empty_is_noop activeInboundSys "call-1" _ (Or.inr rfl)⟩

/-! ## Claim C6 -/

/-- C6: when the completion request of a processing step fails, the
session never leaves `active`: `processMessage` returns the fixed apology,
which is synthesized and forwarded to the caller, and the history holds
exactly the turns submitted to the model (the user turn was appended, no
assistant turn) - ready for the next transcript. -/
theorem c6_completion_failure_degrades_to_apology
    (sys : Sys) (cid : String) (tr : TranscriptionResult) (call : CallRecord)
    (audio : String)
    (hget : mapGet sys.cm.activeCalls cid = some call)
    (hstatus : call.status = "active")
    (hfin : tr.isFinal = true) (hne : tr.transcript ≠ "") :
    statusOf
      (taskAdvance (taskAdvance (transcriptArrive sys cid tr)
        sys.tasks.length none none) sys.tasks.length none (some audio)) cid =
      some "active" ∧
    (taskAdvance (taskAdvance (transcriptArrive sys cid tr)
        sys.tasks.length none none) sys.tasks.length none (some audio)).trace =
      sys.trace ++
        [Effect.completionRequest cid (processMessagePre sys.bot cid tr.transcript).2,
         Effect.synthRequest fallbackResponse,
         Effect.audioForward audio] ∧
    mapGet
      (taskAdvance (taskAdvance (transcriptArrive sys cid tr)
        sys.tasks.length none none) sys.tasks.length none (some audio)).bot.conversations
      cid = some ⟨historyOrSeed sys.bot cid ++ [⟨.user, tr.transcript⟩]⟩ := by
  have h1 := transcriptArrive_final_eq sys cid tr call hget hfin hne
  set s1 := transcriptArrive sys cid tr with hs1
  have htask1 : s1.tasks[sys.tasks.length]? =
      some ⟨cid, TaskK.awaitingCompletion⟩ := by
    rw [h1]
    exact getElem?_concat sys.tasks _
  have h2 := taskAdvance_completion_eq s1 sys.tasks.length cid none none htask1
  set s2 := taskAdvance s1 sys.tasks.length none none with hs2
  have hpost : processMessagePost s1.bot cid none = (s1.bot, fallbackResponse) := rfl
  have htask2 : s2.tasks[sys.tasks.length]? =
      some ⟨cid, TaskK.awaitingSynth fallbackResponse⟩ := by
    rw [h2, hpost, h1]
    simp only
    rw [set_concat]
    exact getElem?_concat sys.tasks _
  have h3 := taskAdvance_synth_eq s2 sys.tasks.length cid fallbackResponse none
    audio htask2
  refine ⟨?_, ?_, ?_⟩
  · rw [h3, h2, hpost, h1]
    simp only [statusOf]
    rw [mapGet_set_self]
    simp [hstatus]
  · rw [h3, h2, hpost, h1]
    simp [List.append_assoc]
  · rw [h3, h2, hpost, h1]
    simp only
    rw [processMessagePre_get]

/-- Witness for C6: a failed completion for the final transcript
`"hello"` on the active inbound session ends with the apology synthesized
and forwarded, status still `active`. -/
theorem c6_completion_failure_degrades_to_apology_witness :
    statusOf
      (taskAdvance (taskAdvance
        (transcriptArrive activeInboundSys "call-1" ⟨"call-1", "hello", true⟩)
        activeInboundSys.tasks.length none none)
        activeInboundSys.tasks.length none (some "audio-9")) "call-1" =
      some "active" ∧
    (taskAdvance (taskAdvance
        (transcriptArrive activeInboundSys "call-1" ⟨"call-1", "hello", true⟩)
        activeInboundSys.tasks.length none none)
        activeInboundSys.tasks.length none (some "audio-9")).trace =
      activeInboundSys.trace ++
        [Effect.completionRequest "call-1"
          (processMessagePre activeInboundSys.bot "call-1" "hello").2,
         Effect.synthRequest fallbackResponse,
         Effect.audioForward "audio-9"] ∧
    mapGet
      (taskAdvance (taskAdvance
        (transcriptArrive activeInboundSys "call-1" ⟨"call-1", "hello", true⟩)
        activeInboundSys.tasks.length none none)
        activeInboundSys.tasks.length none (some "audio-9")).bot.conversations
      "call-1" =
      some ⟨historyOrSeed activeInboundSys.bot "call-1" ++ [⟨.user, "hello"⟩]⟩ :=
  c6_completion_failure_degrades_to_apology activeInboundSys "call-1"
    ⟨"call-1", "hello", true⟩ activeInboundRec "audio-9"
    (by decide) rfl rfl (by decide)

/-! ## Claim C7 -/

/-- C7, behaviour of the code at the failing input: the synthesis error
rethrown by `textToSpeech` leaves the handler's promise rejected
(`doneErr`) with no catch anywhere in the pipeline - the error is not
contained.  No audio is forwarded for the turn and the session record
still reads `active`, but the rejection escapes the transcript handler as
an unhandled promise rejection. -/
theorem c7_synthesis_failure_rejects_handler :
    c7run.tasks = [TaskEntry.mk "call-1" TaskK.doneErr] ∧
    synthRequests c7run.trace = ["hi there"] ∧
    audioForwards c7run.trace = [] ∧
    statusOf c7run "call-1" = some "active" := by
  decide

/-! ## Claim C8 -/

/-- C8: in every reachable state of the service, every status stored in
the registry - and hence the status of every snapshot `getCallDetails`
returns while the record is queryable - denotes one of the five defined
state-machine states; `get` never yields an undefined status. -/
theorem c8_status_always_defined (ops : List Op) (cid : String)
    (d : CallDetails) (h : getCallDetails (runOps ops) cid = some d) :
    (specStateOfStatus d.status).isSome = true := by
  unfold getCallDetails at h
  cases hm : mapGet (runOps ops).cm.activeCalls cid with
  | none =>
      rw [hm] at h
      cases h
  | some call =>
      rw [hm] at h
      cases h
      exact runOps_statuses ops (cid, call) (mapGet_mem hm)

/-- Witness for C8: the snapshot of the freshly created inbound call has
the defined status `initializing`. -/
theorem c8_status_always_defined_witness :
    (specStateOfStatus
      (CallDetails.mk "call-1" .inbound "initializing" "room-42" none).status).isSome
      = true :=
  c8_status_always_defined [Op.inbound true "call-1" "room-42" "pstn-1"]
    "call-1" (CallDetails.mk "call-1" .inbound "initializing" "room-42" none)
    (by decide)

/-! ## Claim C9 -/

/-- C9: every number dialed through `placeOutboundCall` is normalized by
`formatPhone` before entering the SIP URI handed to the transport: the
formatted number always carries the `+` prefix, the normalization is
idempotent (already-canonical numbers pass through unchanged), and the
dial request uses exactly `sip:<formatted>@<domain>`. -/
theorem c9_outbound_number_normalized (sys : Sys) (dialOk : Bool)
    (rn p dom : String) :
    (placeOutboundCall sys true dialOk rn p dom).1.trace =
      sys.trace ++ [Effect.roomProvision rn,
        Effect.sipDial ("sip:" ++ formatPhone p ++ "@" ++ dom)] ∧
    startsWithPlus (formatPhone p) = true ∧
    formatPhone (formatPhone p) = formatPhone p := by
  have hplus : startsWithPlus (formatPhone p) = true := by
    by_cases h : startsWithPlus p = true
    · simp [formatPhone, h]
    · unfold formatPhone
      rw [if_neg (by simp [h])]
      unfold startsWithPlus
      rw [String.data_append]
      have hp : "+".data = ['+'] := rfl
      rw [hp]
      simp
  refine ⟨?_, hplus, ?_⟩
  · cases dialOk <;>
      simp [placeOutboundCall, sipUri, List.append_assoc]
  · rw [formatPhone, if_pos hplus]

/-! ## Claim C10 -/

/-- C10: `processMessage` and `addSystemMessage` are total over call ids -
an unknown id is silently auto-initialized with the default system prompt
and the append then succeeds: after either operation the stored history is
the previous history (or the fresh seed) plus exactly the one new turn,
and the user-turn append is also what `processMessage` submits to the
model. -/
theorem c10_autoinit_append_total (bot : BotState) (cid content input : String) :
    mapGet (addSystemMessage bot cid content).conversations cid =
      some ⟨historyOrSeed bot cid ++ [⟨.system, content⟩]⟩ ∧
    mapGet (processMessagePre bot cid input).1.conversations cid =
      some ⟨historyOrSeed bot cid ++ [⟨.user, input⟩]⟩ ∧
    (processMessagePre bot cid input).2 =
      historyOrSeed bot cid ++ [⟨.user, input⟩] :=
  ⟨pushTurn_ensure_get bot cid ⟨.system, content⟩,
   processMessagePre_get bot cid input,
   processMessagePre_snd bot cid input⟩

end VoiceBot
